import Mathlib

/-!
Verification of the image-management backend: shallow embedding of the
auth service, image service, repositories, error classes and the global
error-handling middleware, followed by theorems settling the spec claims.

Dates are modelled as natural-number timestamps, the database as in-memory
lists with an auto-increment counter, and the local filesystem as the list
of stored paths. External primitives that live outside the repository
(bcrypt hashing and comparison, JWT signing) are passed in as function
parameters, so every theorem holds for all their implementations.
-/

set_option maxHeartbeats 1000000

namespace ImageMgmt

/-- A stored user row (models/interfaces/User.interface). -/
structure User where
  id : Nat
  email : String
  fullName : String
  password : String
  createdAt : Nat
  deriving Repr, DecidableEq

/-- The user shape returned by login (UserDto): id, email, createdAt only. -/
structure UserDto where
  id : Nat
  email : String
  createdAt : Nat
  deriving Repr, DecidableEq

/-- A stored image row (models/Image.ts attributes, timestamps collapsed to createdAt). -/
structure Image where
  id : Nat
  userId : Nat
  filename : String
  originalName : String
  mimetype : String
  size : Nat
  path : String
  createdAt : Nat
  deriving Repr, DecidableEq

/-- The image shape returned to clients (ImageDto). -/
structure ImageDto where
  id : Nat
  filename : String
  originalName : String
  mimetype : String
  size : Nat
  url : String
  createdAt : Nat
  deriving Repr, DecidableEq

/-- Payload for ImageRepository.create (CreateImageDto). -/
structure CreateImageDto where
  userId : Nat
  filename : String
  originalName : String
  mimetype : String
  size : Nat
  path : String
  deriving Repr, DecidableEq

/-- Payload for ImageRepository.update (UpdateImageDto). -/
structure UpdateImageDto where
  filename : String
  originalName : String
  mimetype : String
  size : Nat
  path : String
  deriving Repr, DecidableEq

/-- A multer file object as the services consume it. -/
structure MulterFile where
  filename : String
  originalname : String
  mimetype : String
  size : Nat
  path : String
  deriving Repr, DecidableEq

/-- The AppError hierarchy (models/errors/AppError.ts): each subclass fixes a status code. -/
inductive AppError where
  | validation (message : String)
  | authentication (message : String)
  | authorization (message : String)
  | notFound (message : String)
  deriving Repr, DecidableEq

/-- Status code carried by each AppError subclass. -/
def AppError.statusCode : AppError → Nat
  | .validation _ => 400
  | .authentication _ => 401
  | .authorization _ => 403
  | .notFound _ => 404

/-- Message carried by an AppError. -/
def AppError.message : AppError → String
  | .validation m => m
  | .authentication m => m
  | .authorization m => m
  | .notFound m => m

/-- Any error value that can reach the global error handler: an AppError
instance, a MulterError with its code, or a plain Error carrying its
runtime name (for example SequelizeValidationError) and message. -/
inductive JsError where
  | app (e : AppError)
  | multer (code : String) (message : String)
  | named (name : String) (message : String)
  deriving Repr, DecidableEq

/-- leadMatch sub l is true when sub occurs at the head of l. -/
def leadMatch : List Char → List Char → Bool
  | [], _ => true
  | _ :: _, [] => false
  | a :: as, b :: bs => a == b && leadMatch as bs

/-- subIn sub l is true when sub occurs as a contiguous run inside l. -/
def subIn (sub : List Char) : List Char → Bool
  | [] => sub.isEmpty
  | c :: cs => leadMatch sub (c :: cs) || subIn sub cs

/-- strIncludes hay sub models the JavaScript string includes test. -/
def strIncludes (hay sub : String) : Bool :=
  subIn sub.data hay.data

/-- The global error handler (middleware/error.middleware.ts): the pair of
HTTP status code and message it sends. Branch order follows the source:
AppError instance, MulterError, message containing the file-filter text,
Sequelize validation error, Sequelize unique-constraint error, default 500. -/
def errorHandler : JsError → Nat × String
  | .app e => (e.statusCode, e.message)
  | .multer code msg =>
      if code == "LIMIT_FILE_SIZE" then
        (400, "File size exceeds the maximum allowed limit")
      else if code == "LIMIT_UNEXPECTED_FILE" then
        (400, "Unexpected field in file upload")
      else
        (400, msg)
  | .named nm msg =>
      if strIncludes msg "Invalid file type" then
        (400, msg)
      else if nm == "SequelizeValidationError" then
        (400, "Validation error")
      else if nm == "SequelizeUniqueConstraintError" then
        (400, "Resource already exists")
      else
        (500, "Internal server error")

/-- A character allowed by the classes of the registration email regex:
everything except whitespace and the at sign. -/
def validEmailChar (c : Char) : Bool :=
  !c.isWhitespace && c != '@'

/-- The email test of AuthService.register. The regex forces exactly one
at sign, a nonempty run of allowed characters before it, and after it a
nonempty run, a dot, and another nonempty run. -/
def emailRegexTest (s : String) : Bool :=
  let cs := s.data
  let before := cs.takeWhile (fun c => c != '@')
  match cs.dropWhile (fun c => c != '@') with
  | [] => false
  | _ :: t =>
      !before.isEmpty && before.all validEmailChar &&
      !t.isEmpty && t.all validEmailChar &&
      ((t.drop 1).dropLast.contains '.')

/-- The users table together with its auto-increment counter. -/
structure AuthState where
  users : List User
  nextUserId : Nat
  deriving Repr, DecidableEq

namespace UserRepository

/-- UserRepository.findByEmail: first row whose email matches. -/
def findByEmail (users : List User) (email : String) : Option User :=
  users.find? (fun u => u.email == email)

/-- UserRepository.create: insert a user built from email, the already
hashed password, and fullName; the database assigns the next id. -/
def create (st : AuthState) (email hashedPassword fullName : String)
    (now : Nat) : User × AuthState :=
  let u : User :=
    { id := st.nextUserId, email := email, fullName := fullName
      password := hashedPassword, createdAt := now }
  (u, { users := st.users ++ [u], nextUserId := st.nextUserId + 1 })

end UserRepository

namespace AuthService

/-- AuthService.register: email-format check, duplicate-email check, hash
the password, create the user, return its id. The bcrypt hash lives
outside the repository sources, so it is a parameter. -/
def register (hashPassword : String → String) (st : AuthState)
    (email password fullName : String) (now : Nat) :
    Except AppError Nat × AuthState :=
  if !emailRegexTest email then
    (.error (.validation "Invalid email format"), st)
  else
    match UserRepository.findByEmail st.users email with
    | some _ => (.error (.validation "Email already exists"), st)
    | none =>
        let hashed := hashPassword password
        let (u, st') := UserRepository.create st email hashed fullName now
        (.ok u.id, st')

/-- AuthService.login: look up by email, compare the password against the
stored hash, and on success return the token generated from the user id
together with the UserDto. bcrypt comparison and JWT signing live outside
the repository sources, so they are parameters. -/
def login (comparePassword : String → String → Bool)
    (generateToken : Nat → String) (st : AuthState)
    (email password : String) : Except AppError (String × UserDto) :=
  match UserRepository.findByEmail st.users email with
  | none => .error (.authentication "Invalid credentials")
  | some user =>
      if comparePassword password user.password then
        .ok (generateToken user.id,
          { id := user.id, email := user.email, createdAt := user.createdAt })
      else
        .error (.authentication "Invalid credentials")

end AuthService

/-- The images table together with its auto-increment counter. -/
structure ImageDb where
  images : List Image
  nextId : Nat
  deriving Repr, DecidableEq

/-- The local filesystem as the list of stored paths. -/
structure FileSys where
  files : List String
  deriving Repr, DecidableEq

/-- Combined state the image service acts on: database plus filesystem. -/
structure ImageState where
  db : ImageDb
  fs : FileSys
  deriving Repr, DecidableEq

/-- fs.unlink: remove the path when present and report success, otherwise
leave the filesystem unchanged and report failure. -/
def FileSys.unlink (fs : FileSys) (p : String) : FileSys × Bool :=
  if fs.files.contains p then
    ({ files := fs.files.filter (fun q => q != p) }, true)
  else
    (fs, false)

namespace ImageRepository

/-- ImageRepository.create: Image.create assigns the next id and stores the row. -/
def create (db : ImageDb) (d : CreateImageDto) (now : Nat) : Image × ImageDb :=
  let img : Image :=
    { id := db.nextId, userId := d.userId, filename := d.filename
      originalName := d.originalName, mimetype := d.mimetype
      size := d.size, path := d.path, createdAt := now }
  (img, { images := db.images ++ [img], nextId := db.nextId + 1 })

/-- ImageRepository.findById: Image.findByPk. -/
def findById (db : ImageDb) (id : Nat) : Option Image :=
  db.images.find? (fun i => i.id == id)

/-- ImageRepository.findByUserId: Image.findAll filtered on userId. -/
def findByUserId (db : ImageDb) (userId : Nat) : List Image :=
  db.images.filter (fun i => i.userId == userId)

/-- ImageRepository.update: look the row up by primary key; when missing it
throws a plain Error, otherwise it overwrites the file fields in place. -/
def update (db : ImageDb) (id : Nat) (d : UpdateImageDto) :
    Except JsError (Image × ImageDb) :=
  match db.images.find? (fun i => i.id == id) with
  | none => .error (.named "Error" "Image not found")
  | some img =>
      let img' : Image :=
        { img with filename := d.filename, originalName := d.originalName
                   mimetype := d.mimetype, size := d.size, path := d.path }
      .ok (img',
        { images := db.images.map (fun i => if i.id == id then img' else i)
          nextId := db.nextId })

/-- ImageRepository.delete: Image.destroy on the id. -/
def delete (db : ImageDb) (id : Nat) : ImageDb :=
  { images := db.images.filter (fun i => i.id != id), nextId := db.nextId }

end ImageRepository

/-- MIME types the image service accepts. -/
def allowedMimeTypes : List String :=
  ["image/jpeg", "image/jpg", "image/png", "image/gif"]

namespace ImageService

/-- ImageService.toImageDto: expose the row with its public URL. -/
def toImageDto (img : Image) : ImageDto :=
  { id := img.id, filename := img.filename, originalName := img.originalName
    mimetype := img.mimetype, size := img.size
    url := "/uploads/" ++ img.filename, createdAt := img.createdAt }

/-- ImageService.uploadImage: reject a missing file, reject a MIME type
outside the allowlist, otherwise create the database row and return its DTO. -/
def uploadImage (st : ImageState) (userId : Nat) (file : Option MulterFile)
    (now : Nat) : Except JsError ImageDto × ImageState :=
  match file with
  | none => (.error (.app (.validation "No file provided")), st)
  | some f =>
      if !allowedMimeTypes.contains f.mimetype then
        (.error (.app (.validation
          "Invalid file type. Only JPEG, PNG, and GIF images are allowed")), st)
      else
        let d : CreateImageDto :=
          { userId := userId, filename := f.filename
            originalName := f.originalname, mimetype := f.mimetype
            size := f.size, path := f.path }
        let (img, db') := ImageRepository.create st.db d now
        (.ok (toImageDto img), { st with db := db' })

/-- ImageService.updateImage: file checks, then lookup, then the ownership
check; only after those does it unlink the old file (failure swallowed)
and overwrite the row. -/
def updateImage (st : ImageState) (userId imageId : Nat)
    (file : Option MulterFile) : Except JsError ImageDto × ImageState :=
  match file with
  | none => (.error (.app (.validation "No file provided")), st)
  | some f =>
      if !allowedMimeTypes.contains f.mimetype then
        (.error (.app (.validation
          "Invalid file type. Only JPEG, PNG, and GIF images are allowed")), st)
      else
        match ImageRepository.findById st.db imageId with
        | none => (.error (.app (.notFound "Image not found")), st)
        | some existing =>
            if existing.userId != userId then
              (.error (.app (.authorization
                "You are not authorized to update this image")), st)
            else
              let fs' := (st.fs.unlink existing.path).1
              let d : UpdateImageDto :=
                { filename := f.filename, originalName := f.originalname
                  mimetype := f.mimetype, size := f.size, path := f.path }
              match ImageRepository.update st.db imageId d with
              | .error e => (.error e, { db := st.db, fs := fs' })
              | .ok (img', db') => (.ok (toImageDto img'), { db := db', fs := fs' })

/-- ImageService.deleteImage: lookup, ownership check, unlink the file
(failure swallowed), then delete the database row. -/
def deleteImage (st : ImageState) (userId imageId : Nat) :
    Except JsError Unit × ImageState :=
  match ImageRepository.findById st.db imageId with
  | none => (.error (.app (.notFound "Image not found")), st)
  | some existing =>
      if existing.userId != userId then
        (.error (.app (.authorization
          "You are not authorized to delete this image")), st)
      else
        let fs' := (st.fs.unlink existing.path).1
        let db' := ImageRepository.delete st.db imageId
        (.ok (), { db := db', fs := fs' })

/-- ImageService.getUserImages: every row of the user, mapped to DTOs. -/
def getUserImages (st : ImageState) (userId : Nat) : List ImageDto :=
  (ImageRepository.findByUserId st.db userId).map toImageDto

end ImageService

/-- An HTTP response as the login controllers build it: status code, the
value of the success field when the body has one, and the message. The
AuthController catch branch misspells the success key, so its body carries
no success field and is modelled with none. -/
structure HttpResponse where
  status : Nat
  success : Option Bool
  message : String
  deriving Repr, DecidableEq

/-- A request body field is missing when absent or the empty string, the
falsy values the controllers test with the bang operator. -/
def bodyFieldMissing : Option String → Bool
  | none => true
  | some s => s == ""

/-- Modelled from the spec: the UserService module imported by
UserController is not under src; the spec describes a single login flow
(credential check against the stored hash, JWT issuance), so its login is
modelled identically to AuthService.login. -/
def UserService.login (comparePassword : String → String → Bool)
    (generateToken : Nat → String) (st : AuthState)
    (email password : String) : Except AppError (String × UserDto) :=
  AuthService.login comparePassword generateToken st email password

namespace UserController

/-- UserController.login: missing fields give 400; a service success gives
200; any service error is caught in the controller itself and answered
with 500 and the fixed body. -/
def login (comparePassword : String → String → Bool)
    (generateToken : Nat → String) (st : AuthState)
    (email password : Option String) : HttpResponse :=
  if bodyFieldMissing email || bodyFieldMissing password then
    { status := 400, success := some false
      message := "Email and password are required" }
  else
    match email, password with
    | some e, some p =>
        match UserService.login comparePassword generateToken st e p with
        | .ok _ =>
            { status := 200, success := some true, message := "Login successful" }
        | .error _ =>
            { status := 500, success := some false
              message := "Internal server error" }
    | _, _ =>
        { status := 400, success := some false
          message := "Email and password are required" }

end UserController

namespace AuthController

/-- AuthController.login: missing fields give 400; a service success gives
200; any service error is caught in the controller itself and answered
with 500, a body whose success key is misspelled, and the raw error message. -/
def login (comparePassword : String → String → Bool)
    (generateToken : Nat → String) (st : AuthState)
    (email password : Option String) : HttpResponse :=
  if bodyFieldMissing email || bodyFieldMissing password then
    { status := 400, success := some false
      message := "Email and password are required" }
  else
    match email, password with
    | some e, some p =>
        match AuthService.login comparePassword generateToken st e p with
        | .ok _ =>
            { status := 200, success := some true, message := "Login successful" }
        | .error err =>
            { status := 500, success := none, message := err.message }
    | _, _ =>
        { status := 400, success := some false
          message := "Email and password are required" }

end AuthController

/-- The status mapping exactly as claim C3 words it: AppError subclasses
map to their statusCode, Multer and Sequelize validation or
unique-constraint errors to 400, everything else to 500. Stated from the
claim, to be compared with errorHandler. -/
def claimedStatusC3 : JsError → Nat
  | .app e => e.statusCode
  | .multer _ _ => 400
  | .named nm _ =>
      if nm == "SequelizeValidationError" || nm == "SequelizeUniqueConstraintError"
      then 400 else 500

/-- The status mapping the middleware really computes: as claimed, plus a
400 for any plain error whose message contains the file-filter text
Invalid file type. -/
def amendedStatusC3 : JsError → Nat
  | .app e => e.statusCode
  | .multer _ _ => 400
  | .named nm msg =>
      if strIncludes msg "Invalid file type" then 400
      else if nm == "SequelizeValidationError" || nm == "SequelizeUniqueConstraintError"
      then 400 else 500

/-! Helper lemmas shared by the claim theorems. -/

/-- A list member satisfying the search predicate makes find? succeed. -/
theorem find?_isSome_of_mem {α : Type} {p : α → Bool} {l : List α} {a : α}
    (ha : a ∈ l) (hp : p a = true) : (l.find? p).isSome = true := by
  induction l with
  | nil => cases ha
  | cons b bs ih =>
      rcases List.mem_cons.mp ha with rfl | hmem
      · simp [List.find?, hp]
      · by_cases hb : p b
        · simp [List.find?, hb]
        · simp only [List.find?]
          rw [Bool.not_eq_true] at hb
          rw [hb]
          exact ih hmem

/-- When the matching member is unique, find? returns exactly it. -/
theorem find?_eq_of_unique {α : Type} {p : α → Bool} {l : List α} {a : α}
    (ha : a ∈ l) (hp : p a = true)
    (huniq : ∀ b ∈ l, p b = true → b = a) : l.find? p = some a := by
  have hsome := find?_isSome_of_mem ha hp
  cases hfind : l.find? p with
  | none => rw [hfind] at hsome; cases hsome
  | some b =>
      have hb : p b = true := List.find?_some hfind
      have hbl : b ∈ l := List.mem_of_find?_eq_some hfind
      rw [huniq b hbl hb]

/-- Every error AuthService.login can return is the uniform
AuthenticationError with message Invalid credentials. -/
theorem login_error_uniform_aux
    (cmp : String → String → Bool) (gen : Nat → String) (st : AuthState)
    (email password : String) (e : AppError)
    (h : AuthService.login cmp gen st email password = .error e) :
    e = .authentication "Invalid credentials" := by
  unfold AuthService.login at h
  cases hfind : UserRepository.findByEmail st.users email with
  | none =>
      rw [hfind] at h
      exact (Except.error.inj h).symm
  | some u =>
      rw [hfind] at h
      dsimp only at h
      by_cases hc : cmp password u.password = true
      · rw [if_pos hc] at h; cases h
      · rw [if_neg hc] at h
        exact (Except.error.inj h).symm

/-- A row found by id makes the repository update succeed. -/
theorem update_isOk_of_findById (db : ImageDb) (id : Nat) (img : Image)
    (d : UpdateImageDto) (h : ImageRepository.findById db id = some img) :
    ∃ r, ImageRepository.update db id d = .ok r := by
  unfold ImageRepository.findById at h
  unfold ImageRepository.update
  rw [h]
  exact ⟨_, rfl⟩

/-- An owning-user mismatch makes deleteImage stop at the 403. -/
theorem deleteImage_wrong_owner_aux
    (st : ImageState) (uid imageId : Nat) (img : Image)
    (hfind : ImageRepository.findById st.db imageId = some img)
    (hne : img.userId ≠ uid) :
    ImageService.deleteImage st uid imageId
      = (.error (.app (.authorization
          "You are not authorized to delete this image")), st) := by
  unfold ImageService.deleteImage
  rw [hfind]
  dsimp only
  rw [if_pos (by simpa using hne)]

/-- An owning-user mismatch makes updateImage with a well-formed file stop
at the 403. -/
theorem updateImage_wrong_owner_aux
    (st : ImageState) (uid imageId : Nat) (f : MulterFile) (img : Image)
    (hfind : ImageRepository.findById st.db imageId = some img)
    (hne : img.userId ≠ uid)
    (hmime : allowedMimeTypes.contains f.mimetype = true) :
    ImageService.updateImage st uid imageId (some f)
      = (.error (.app (.authorization
          "You are not authorized to update this image")), st) := by
  unfold ImageService.updateImage
  dsimp only
  rw [hmime]
  simp only [Bool.not_true, Bool.false_eq_true, if_false]
  rw [hfind]
  dsimp only
  rw [if_pos (by simpa using hne)]

/-! Claim theorems. -/

/-- C1: when some stored user already has the submitted email, register
leaves the user store unchanged (creates no user) and returns a
ValidationError, whose status code is 400. -/
theorem register_duplicate_email_400
    (hash : String → String) (st : AuthState)
    (email password fullName : String) (now : Nat) (u : User)
    (hu : u ∈ st.users) (he : u.email = email) :
    (AuthService.register hash st email password fullName now).2 = st ∧
    ((AuthService.register hash st email password fullName now).1
        = .error (.validation "Email already exists") ∨
     (AuthService.register hash st email password fullName now).1
        = .error (.validation "Invalid email format")) ∧
    (AppError.validation "Email already exists").statusCode = 400 ∧
    (AppError.validation "Invalid email format").statusCode = 400 := by
  unfold AuthService.register
  by_cases hre : emailRegexTest email
  · have hsome : (UserRepository.findByEmail st.users email).isSome = true :=
      find?_isSome_of_mem hu (by simp [he])
    cases hfind : UserRepository.findByEmail st.users email with
    | none => rw [hfind] at hsome; cases hsome
    | some v =>
        simp only [hre, hfind, Bool.not_true, Bool.false_eq_true, if_false]
        exact ⟨trivial, Or.inl trivial, rfl, rfl⟩
  · rw [Bool.not_eq_true] at hre
    simp only [hre, Bool.not_false, if_true]
    exact ⟨trivial, Or.inr trivial, rfl, rfl⟩

/-- C1 witness at a concrete store already holding the email. -/
theorem register_duplicate_email_400_witness :
    (AuthService.register (fun p => p ++ "#")
        ⟨[⟨1, "a@b.c", "Al", "h1", 0⟩], 2⟩ "a@b.c" "pw" "Bo" 7).2
      = ⟨[⟨1, "a@b.c", "Al", "h1", 0⟩], 2⟩ ∧
    ((AuthService.register (fun p => p ++ "#")
        ⟨[⟨1, "a@b.c", "Al", "h1", 0⟩], 2⟩ "a@b.c" "pw" "Bo" 7).1
        = .error (.validation "Email already exists") ∨
     (AuthService.register (fun p => p ++ "#")
        ⟨[⟨1, "a@b.c", "Al", "h1", 0⟩], 2⟩ "a@b.c" "pw" "Bo" 7).1
        = .error (.validation "Invalid email format")) ∧
    (AppError.validation "Email already exists").statusCode = 400 ∧
    (AppError.validation "Invalid email format").statusCode = 400 :=
  register_duplicate_email_400 (fun p => p ++ "#")
    ⟨[⟨1, "a@b.c", "Al", "h1", 0⟩], 2⟩ "a@b.c" "pw" "Bo" 7
    ⟨1, "a@b.c", "Al", "h1", 0⟩ (List.mem_singleton.mpr rfl) rfl

/-- C5: after any register call, every stored user either predates the call
or carries exactly hashPassword of the submitted password as its password
field, so the plaintext is never handed to the repository. -/
theorem register_stores_only_hash
    (hash : String → String) (st : AuthState)
    (email password fullName : String) (now : Nat) :
    ∀ v ∈ (AuthService.register hash st email password fullName now).2.users,
      v ∈ st.users ∨ v.password = hash password := by
  intro v hv
  unfold AuthService.register at hv
  by_cases hre : emailRegexTest email
  · cases hfind : UserRepository.findByEmail st.users email with
    | none =>
        rw [hre, hfind] at hv
        unfold UserRepository.create at hv
        simp only at hv
        rcases List.mem_append.mp hv with hold | hnew
        · exact Or.inl hold
        · right
          rw [List.mem_singleton.mp hnew]
    | some w =>
        rw [hre, hfind] at hv
        exact Or.inl hv
  · rw [Bool.not_eq_true] at hre
    rw [hre] at hv
    exact Or.inl hv

/-- C5 witness: the single user created by a concrete register call holds
the hash of the password. -/
theorem register_stores_only_hash_witness :
    (⟨0, "a@b.c", "Al", "pw#", 3⟩ : User) ∈ (⟨[], 0⟩ : AuthState).users ∨
    ("pw#" : String) = (fun p => p ++ "#") "pw" :=
  register_stores_only_hash (fun p => p ++ "#") ⟨[], 0⟩ "a@b.c" "pw" "Al" 3
    ⟨0, "a@b.c", "Al", "pw#", 3⟩ (by decide)

/-- C10: both failure paths of login, unknown email and wrong password,
return the same AuthenticationError with message Invalid credentials, so
the error does not reveal whether the email is registered. -/
theorem login_uniform_error_message
    (cmp : String → String → Bool) (gen : Nat → String) (st : AuthState)
    (email password : String) (e : AppError)
    (h : AuthService.login cmp gen st email password = .error e) :
    e = .authentication "Invalid credentials" :=
  login_error_uniform_aux cmp gen st email password e h

/-- C10 witness: the unknown-email path and the wrong-password path of two
concrete login calls both carry the uniform message. -/
theorem login_uniform_error_message_witness :
    (AppError.authentication "Invalid credentials"
        = .authentication "Invalid credentials") ∧
    (AppError.authentication "Invalid credentials"
        = .authentication "Invalid credentials") :=
  ⟨login_uniform_error_message (fun p h => p == h) (fun n => toString n)
      ⟨[], 0⟩ "a@b.c" "pw" (.authentication "Invalid credentials") rfl,
   login_uniform_error_message (fun p h => p == h) (fun n => toString n)
      ⟨[⟨1, "a@b.c", "Al", "secret", 0⟩], 2⟩ "a@b.c" "wrong"
      (.authentication "Invalid credentials") rfl⟩

/-- A failing uploadImage call leaves the state untouched. -/
theorem uploadImage_error_state_aux
    (st : ImageState) (uid : Nat) (file : Option MulterFile) (now : Nat)
    (e : JsError) (st' : ImageState)
    (h : ImageService.uploadImage st uid file now = (.error e, st')) :
    st' = st := by
  unfold ImageService.uploadImage at h
  cases file with
  | none => exact (congrArg Prod.snd h).symm
  | some f =>
      dsimp only at h
      by_cases hm : allowedMimeTypes.contains f.mimetype = true
      · rw [hm] at h
        simp only [Bool.not_true, Bool.false_eq_true, if_false] at h
        exact absurd (congrArg Prod.fst h) (by simp)
      · rw [Bool.not_eq_true] at hm
        rw [hm] at h
        simp only [Bool.not_false, if_true] at h
        exact (congrArg Prod.snd h).symm

/-- A failing deleteImage call leaves the state untouched. -/
theorem deleteImage_error_state_aux
    (st : ImageState) (uid imageId : Nat) (e : JsError) (st' : ImageState)
    (h : ImageService.deleteImage st uid imageId = (.error e, st')) :
    st' = st := by
  unfold ImageService.deleteImage at h
  cases hfind : ImageRepository.findById st.db imageId with
  | none =>
      rw [hfind] at h
      exact (congrArg Prod.snd h).symm
  | some img =>
      rw [hfind] at h
      dsimp only at h
      by_cases hne : (img.userId != uid) = true
      · rw [if_pos hne] at h
        exact (congrArg Prod.snd h).symm
      · rw [if_neg hne] at h
        exact absurd (congrArg Prod.fst h) (by simp)

/-- A failing updateImage call leaves the state untouched. -/
theorem updateImage_error_state_aux
    (st : ImageState) (uid imageId : Nat) (file : Option MulterFile)
    (e : JsError) (st' : ImageState)
    (h : ImageService.updateImage st uid imageId file = (.error e, st')) :
    st' = st := by
  unfold ImageService.updateImage at h
  cases file with
  | none => exact (congrArg Prod.snd h).symm
  | some f =>
      dsimp only at h
      by_cases hm : allowedMimeTypes.contains f.mimetype = true
      · rw [hm] at h
        simp only [Bool.not_true, Bool.false_eq_true, if_false] at h
        cases hfind : ImageRepository.findById st.db imageId with
        | none =>
            rw [hfind] at h
            exact (congrArg Prod.snd h).symm
        | some img =>
            rw [hfind] at h
            dsimp only at h
            by_cases hne : (img.userId != uid) = true
            · rw [if_pos hne] at h
              exact (congrArg Prod.snd h).symm
            · rw [if_neg hne] at h
              obtain ⟨r, hupd⟩ := update_isOk_of_findById st.db imageId img
                ⟨f.filename, f.originalname, f.mimetype, f.size, f.path⟩ hfind
              rw [hupd] at h
              exact absurd (congrArg Prod.fst h) (by simp)
      · rw [Bool.not_eq_true] at hm
        rw [hm] at h
        simp only [Bool.not_false, if_true] at h
        exact (congrArg Prod.snd h).symm

/-- C3 as stated fails: a plain Error, neither an AppError nor a Multer
nor a Sequelize error, is answered with status 400 rather than 500
whenever its message contains the file-filter text, so the status is not
determined by the error type alone. -/
theorem errorHandler_message_branch_cex :
    (errorHandler (.named "Error"
        "Invalid file type. Only image/jpeg, image/jpg, image/png, image/gif are allowed.")).1
      = 400 ∧
    claimedStatusC3 (.named "Error"
        "Invalid file type. Only image/jpeg, image/jpg, image/png, image/gif are allowed.")
      = 500 ∧
    (400 : Nat) ≠ 500 :=
  ⟨by decide, rfl, by decide⟩

/-- C3 amended: the response status is a flat, pure function of the error
value: the claimed type mapping extended by a 400 for plain errors whose
message contains the file-filter text; and no image operation that returns
an error modifies database or filesystem state. -/
theorem errorHandler_status_mapping :
    (∀ e, (errorHandler e).1 = amendedStatusC3 e) ∧
    (∀ st uid file now e st',
       ImageService.uploadImage st uid file now = (.error e, st') → st' = st) ∧
    (∀ st uid imageId e st',
       ImageService.deleteImage st uid imageId = (.error e, st') → st' = st) ∧
    (∀ st uid imageId file e st',
       ImageService.updateImage st uid imageId file = (.error e, st') → st' = st) := by
  refine ⟨?_,
    fun st uid file now e st' h => uploadImage_error_state_aux st uid file now e st' h,
    fun st uid imageId e st' h => deleteImage_error_state_aux st uid imageId e st' h,
    fun st uid imageId file e st' h => updateImage_error_state_aux st uid imageId file e st' h⟩
  intro e
  cases e with
  | app a => rfl
  | multer code msg =>
      unfold errorHandler amendedStatusC3
      dsimp only
      split_ifs <;> rfl
  | named nm msg =>
      unfold errorHandler amendedStatusC3
      dsimp only
      split_ifs <;> simp_all

/-- C3 amended witness: the mapping evaluated on a concrete AppError, and a
concrete failing deleteImage call shown to preserve the state. -/
theorem errorHandler_status_mapping_witness :
    (errorHandler (.app (.notFound "Image not found"))).1
      = amendedStatusC3 (.app (.notFound "Image not found")) ∧
    (⟨⟨[], 0⟩, ⟨[]⟩⟩ : ImageState) = ⟨⟨[], 0⟩, ⟨[]⟩⟩ :=
  ⟨errorHandler_status_mapping.1 (.app (.notFound "Image not found")),
   errorHandler_status_mapping.2.2.1 ⟨⟨[], 0⟩, ⟨[]⟩⟩ 1 5
     (.app (.notFound "Image not found")) ⟨⟨[], 0⟩, ⟨[]⟩⟩ rfl⟩

/-- C2 as stated fails: with an image of user 1 stored under id 1 and
caller 2, an updateImage call whose file has MIME type text-plain raises
ValidationError with status 400, not AuthorizationError with 403, even
though the image exists and its owner differs from the caller. -/
theorem updateImage_wrong_owner_cex :
    (ImageService.updateImage
        ⟨⟨[⟨1, 1, "f.png", "o.png", "image/png", 10, "uploads/f.png", 0⟩], 2⟩,
          ⟨["uploads/f.png"]⟩⟩
        2 1 (some ⟨"g.txt", "g.txt", "text/plain", 5, "uploads/g.txt"⟩)).1
      = .error (.app (.validation
          "Invalid file type. Only JPEG, PNG, and GIF images are allowed")) ∧
    (AppError.validation
        "Invalid file type. Only JPEG, PNG, and GIF images are allowed").statusCode
      = 400 ∧
    ImageRepository.findById
        ⟨[⟨1, 1, "f.png", "o.png", "image/png", 10, "uploads/f.png", 0⟩], 2⟩ 1
      = some ⟨1, 1, "f.png", "o.png", "image/png", 10, "uploads/f.png", 0⟩ ∧
    (1 : Nat) ≠ 2 :=
  ⟨rfl, rfl, rfl, by decide⟩

/-- C2 amended: when an image with the given id exists, its owner differs
from the caller, and, for updateImage, the provided file passes the file
checks, both operations raise AuthorizationError, whose status is 403, and
return the state unchanged: no database record and no stored file is
modified. -/
theorem image_ops_wrong_owner_403
    (st : ImageState) (uid imageId : Nat) (f : MulterFile) (img : Image)
    (hfind : ImageRepository.findById st.db imageId = some img)
    (hne : img.userId ≠ uid)
    (hmime : allowedMimeTypes.contains f.mimetype = true) :
    ImageService.updateImage st uid imageId (some f)
      = (.error (.app (.authorization
          "You are not authorized to update this image")), st) ∧
    ImageService.deleteImage st uid imageId
      = (.error (.app (.authorization
          "You are not authorized to delete this image")), st) ∧
    (AppError.authorization "You are not authorized to update this image").statusCode
      = 403 ∧
    (AppError.authorization "You are not authorized to delete this image").statusCode
      = 403 :=
  ⟨updateImage_wrong_owner_aux st uid imageId f img hfind hne hmime,
   deleteImage_wrong_owner_aux st uid imageId img hfind hne, rfl, rfl⟩

/-- C2 amended witness at a concrete store: caller 2 against the image of
user 1 with a well-formed PNG file. -/
theorem image_ops_wrong_owner_403_witness :
    ImageService.updateImage
        ⟨⟨[⟨1, 1, "f.png", "o.png", "image/png", 10, "uploads/f.png", 0⟩], 2⟩,
          ⟨["uploads/f.png"]⟩⟩
        2 1 (some ⟨"g.png", "g.png", "image/png", 5, "uploads/g.png"⟩)
      = (.error (.app (.authorization
          "You are not authorized to update this image")),
        ⟨⟨[⟨1, 1, "f.png", "o.png", "image/png", 10, "uploads/f.png", 0⟩], 2⟩,
          ⟨["uploads/f.png"]⟩⟩) ∧
    ImageService.deleteImage
        ⟨⟨[⟨1, 1, "f.png", "o.png", "image/png", 10, "uploads/f.png", 0⟩], 2⟩,
          ⟨["uploads/f.png"]⟩⟩
        2 1
      = (.error (.app (.authorization
          "You are not authorized to delete this image")),
        ⟨⟨[⟨1, 1, "f.png", "o.png", "image/png", 10, "uploads/f.png", 0⟩], 2⟩,
          ⟨["uploads/f.png"]⟩⟩) :=
  have h := image_ops_wrong_owner_403
    ⟨⟨[⟨1, 1, "f.png", "o.png", "image/png", 10, "uploads/f.png", 0⟩], 2⟩,
      ⟨["uploads/f.png"]⟩⟩
    2 1 ⟨"g.png", "g.png", "image/png", 5, "uploads/g.png"⟩
    ⟨1, 1, "f.png", "o.png", "image/png", 10, "uploads/f.png", 0⟩
    rfl (by decide) (by decide)
  ⟨h.1, h.2.1⟩

/-- C6: when a stored user uniquely carries the given email and the
password matches its stored hash, login returns the token generated from
that user id together with exactly id, email and createdAt; every
successful login arises that way; and every failing login returns an
AuthenticationError. -/
theorem login_success_and_failure
    (cmp : String → String → Bool) (gen : Nat → String) (st : AuthState)
    (email password : String) :
    (∀ u, u ∈ st.users → u.email = email →
       (∀ v ∈ st.users, v.email = email → v = u) →
       cmp password u.password = true →
       AuthService.login cmp gen st email password
         = .ok (gen u.id, ⟨u.id, u.email, u.createdAt⟩)) ∧
    (∀ r, AuthService.login cmp gen st email password = .ok r →
       ∃ u, u ∈ st.users ∧ u.email = email ∧ cmp password u.password = true ∧
         r = (gen u.id, ⟨u.id, u.email, u.createdAt⟩)) ∧
    (∀ e, AuthService.login cmp gen st email password = .error e →
       e = .authentication "Invalid credentials") := by
  refine ⟨?_, ?_, fun e he => login_error_uniform_aux cmp gen st email password e he⟩
  · intro u hu he huniq hc
    have hfind : UserRepository.findByEmail st.users email = some u :=
      find?_eq_of_unique hu (by simp [he])
        (fun b hb hpb => huniq b hb (by simpa using hpb))
    unfold AuthService.login
    rw [hfind]
    dsimp only
    rw [if_pos hc]
  · intro r hr
    unfold AuthService.login at hr
    cases hfind : UserRepository.findByEmail st.users email with
    | none => rw [hfind] at hr; cases hr
    | some u =>
        rw [hfind] at hr
        dsimp only at hr
        by_cases hc : cmp password u.password = true
        · rw [if_pos hc] at hr
          refine ⟨u, List.mem_of_find?_eq_some hfind, ?_, hc, (Except.ok.inj hr).symm⟩
          have := List.find?_some hfind
          simpa using this
        · rw [if_neg hc] at hr; cases hr

/-- C6 witness: a concrete successful login returns the generated token and
the password-free user object. -/
theorem login_success_and_failure_witness :
    AuthService.login (fun p h => (p ++ "#") == h) (fun n => "tok" ++ toString n)
        ⟨[⟨1, "a@b.c", "Al", "pw#", 4⟩], 2⟩ "a@b.c" "pw"
      = .ok ("tok1", ⟨1, "a@b.c", 4⟩) :=
  (login_success_and_failure (fun p h => (p ++ "#") == h)
      (fun n => "tok" ++ toString n)
      ⟨[⟨1, "a@b.c", "Al", "pw#", 4⟩], 2⟩ "a@b.c" "pw").1
    ⟨1, "a@b.c", "Al", "pw#", 4⟩ (by decide) rfl (by decide) (by decide)

/-- C4 as stated fails: an uploadImage call whose field values violate
neither email uniqueness nor the Image-to-User foreign key is still
rejected, because the service enforces an image MIME-type allowlist. -/
theorem invariants_beyond_schema_cex :
    ImageService.uploadImage ⟨⟨[], 1⟩, ⟨[]⟩⟩ 1
        (some ⟨"f.txt", "f.txt", "text/plain", 3, "uploads/f.txt"⟩) 0
      = (.error (.app (.validation
          "Invalid file type. Only JPEG, PNG, and GIF images are allowed")),
        ⟨⟨[], 1⟩, ⟨[]⟩⟩) :=
  rfl

/-- C4 amended: besides email uniqueness and the foreign key, the code
enforces an image MIME-type allowlist on upload, an email-format test on
registration, and per-user ownership on delete; any file whose MIME type
passes the allowlist is accepted whatever its other field values and
whoever the caller is. -/
theorem enforced_checks_beyond_schema
    (st : ImageState) (uid imageId now : Nat) (f : MulterFile) (img : Image)
    (ast : AuthState) (hash : String → String) (email pw fn : String) :
    (allowedMimeTypes.contains f.mimetype = false →
       (ImageService.uploadImage st uid (some f) now).1
         = .error (.app (.validation
             "Invalid file type. Only JPEG, PNG, and GIF images are allowed"))) ∧
    (allowedMimeTypes.contains f.mimetype = true →
       ImageService.uploadImage st uid (some f) now
         = (.ok (ImageService.toImageDto
              ⟨st.db.nextId, uid, f.filename, f.originalname, f.mimetype,
                f.size, f.path, now⟩),
            ⟨⟨st.db.images ++
                [⟨st.db.nextId, uid, f.filename, f.originalname, f.mimetype,
                   f.size, f.path, now⟩], st.db.nextId + 1⟩, st.fs⟩)) ∧
    (emailRegexTest email = false →
       (AuthService.register hash ast email pw fn now).1
         = .error (.validation "Invalid email format")) ∧
    (ImageRepository.findById st.db imageId = some img → img.userId ≠ uid →
       (ImageService.deleteImage st uid imageId).1
         = .error (.app (.authorization
             "You are not authorized to delete this image"))) := by
  refine ⟨?_, ?_, ?_, ?_⟩
  · intro hm
    unfold ImageService.uploadImage
    dsimp only
    rw [hm]
    simp only [Bool.not_false, if_true]
  · intro hm
    unfold ImageService.uploadImage
    dsimp only
    rw [hm]
    simp only [Bool.not_true, Bool.false_eq_true, if_false]
    rfl
  · intro hre
    unfold AuthService.register
    rw [hre]
    simp only [Bool.not_false, if_true]
  · intro hfind hne
    rw [deleteImage_wrong_owner_aux st uid imageId img hfind hne]

/-- C4 amended witness: a disallowed MIME type is rejected, an allowed one
is accepted with arbitrary other fields, a malformed email is rejected,
and a non-owner delete is refused, all at concrete inputs. -/
theorem enforced_checks_beyond_schema_witness :
    (ImageService.uploadImage
        ⟨⟨[⟨1, 1, "f.png", "o.png", "image/png", 10, "uploads/f.png", 0⟩], 2⟩,
          ⟨["uploads/f.png"]⟩⟩ 2
        (some ⟨"weird name", "", "image/gif", 0, ""⟩) 9
      = (.ok (ImageService.toImageDto
            ⟨2, 2, "weird name", "", "image/gif", 0, "", 9⟩),
         ⟨⟨[⟨1, 1, "f.png", "o.png", "image/png", 10, "uploads/f.png", 0⟩,
            ⟨2, 2, "weird name", "", "image/gif", 0, "", 9⟩], 3⟩,
           ⟨["uploads/f.png"]⟩⟩)) ∧
    ((AuthService.register (fun p => p ++ "#") ⟨[], 0⟩ "not-an-email" "pw" "Al" 3).1
      = .error (.validation "Invalid email format")) ∧
    ((ImageService.deleteImage
        ⟨⟨[⟨1, 1, "f.png", "o.png", "image/png", 10, "uploads/f.png", 0⟩], 2⟩,
          ⟨["uploads/f.png"]⟩⟩ 2 1).1
      = .error (.app (.authorization
          "You are not authorized to delete this image"))) := by
  have h := enforced_checks_beyond_schema
    ⟨⟨[⟨1, 1, "f.png", "o.png", "image/png", 10, "uploads/f.png", 0⟩], 2⟩,
      ⟨["uploads/f.png"]⟩⟩
    2 1 9 ⟨"weird name", "", "image/gif", 0, ""⟩
    ⟨1, 1, "f.png", "o.png", "image/png", 10, "uploads/f.png", 0⟩
    ⟨[], 0⟩ (fun p => p ++ "#") "not-an-email" "pw" "Al"
  exact ⟨h.2.1 (by decide), h.2.2.1 (by decide), h.2.2.2 rfl (by decide)⟩

/-- C7: the list returned by getUserImages holds exactly the DTOs of the
stored images whose userId is the requesting user, and uploadImage only
ever adds records carrying the uploading user id. -/
theorem getUserImages_exactly_own (st : ImageState) (u : Nat) :
    (∀ d, d ∈ ImageService.getUserImages st u ↔
       ∃ img, img ∈ st.db.images ∧ img.userId = u ∧
         d = ImageService.toImageDto img) ∧
    (∀ f now r st', ImageService.uploadImage st u (some f) now = (.ok r, st') →
       ∀ img, img ∈ st'.db.images → img ∈ st.db.images ∨ img.userId = u) := by
  constructor
  · intro d
    unfold ImageService.getUserImages ImageRepository.findByUserId
    constructor
    · intro hd
      obtain ⟨img, himg, rfl⟩ := List.mem_map.mp hd
      have hsplit := List.mem_filter.mp himg
      exact ⟨img, hsplit.1, by simpa using hsplit.2, rfl⟩
    · rintro ⟨img, hmem, huid, rfl⟩
      exact List.mem_map.mpr ⟨img, List.mem_filter.mpr ⟨hmem, by simp [huid]⟩, rfl⟩
  · intro f now r st' h img himg
    unfold ImageService.uploadImage at h
    dsimp only at h
    by_cases hm : allowedMimeTypes.contains f.mimetype = true
    · rw [hm] at h
      simp only [Bool.not_true, Bool.false_eq_true, if_false] at h
      have hsnd := congrArg Prod.snd h
      dsimp only at hsnd
      rw [← hsnd] at himg
      unfold ImageRepository.create at himg
      dsimp only at himg
      rcases List.mem_append.mp himg with hold | hnew
      · exact Or.inl hold
      · right
        rw [List.mem_singleton.mp hnew]
    · rw [Bool.not_eq_true] at hm
      rw [hm] at h
      simp only [Bool.not_false, if_true] at h
      exact absurd (congrArg Prod.fst h) (by simp)

/-- C7 witness: a concrete store with images of users 1 and 2, where the
DTO of the user-1 image is listed for user 1, the user-2 image is not, and
a fresh upload only adds a record of the uploading user. -/
theorem getUserImages_exactly_own_witness :
    ImageService.toImageDto ⟨1, 1, "a.png", "a.png", "image/png", 3, "uploads/a.png", 0⟩
        ∈ ImageService.getUserImages
            ⟨⟨[⟨1, 1, "a.png", "a.png", "image/png", 3, "uploads/a.png", 0⟩,
               ⟨2, 2, "b.png", "b.png", "image/png", 4, "uploads/b.png", 0⟩], 3⟩, ⟨[]⟩⟩ 1 ∧
    ((⟨3, 1, "c.png", "c.png", "image/png", 5, "uploads/c.png", 7⟩ : Image)
        ∈ [⟨1, 1, "a.png", "a.png", "image/png", 3, "uploads/a.png", 0⟩,
           ⟨2, 2, "b.png", "b.png", "image/png", 4, "uploads/b.png", 0⟩] ∨
     Image.userId ⟨3, 1, "c.png", "c.png", "image/png", 5, "uploads/c.png", 7⟩ = 1) :=
  ⟨((getUserImages_exactly_own
      ⟨⟨[⟨1, 1, "a.png", "a.png", "image/png", 3, "uploads/a.png", 0⟩,
         ⟨2, 2, "b.png", "b.png", "image/png", 4, "uploads/b.png", 0⟩], 3⟩, ⟨[]⟩⟩ 1).1
     (ImageService.toImageDto ⟨1, 1, "a.png", "a.png", "image/png", 3, "uploads/a.png", 0⟩)).mpr
     ⟨⟨1, 1, "a.png", "a.png", "image/png", 3, "uploads/a.png", 0⟩,
       List.mem_cons_self _ _, rfl, rfl⟩,
   (getUserImages_exactly_own
      ⟨⟨[⟨1, 1, "a.png", "a.png", "image/png", 3, "uploads/a.png", 0⟩,
         ⟨2, 2, "b.png", "b.png", "image/png", 4, "uploads/b.png", 0⟩], 3⟩, ⟨[]⟩⟩ 1).2
     ⟨"c.png", "c.png", "image/png", 5, "uploads/c.png"⟩ 7
     (ImageService.toImageDto ⟨3, 1, "c.png", "c.png", "image/png", 5, "uploads/c.png", 7⟩)
     ⟨⟨[⟨1, 1, "a.png", "a.png", "image/png", 3, "uploads/a.png", 0⟩,
        ⟨2, 2, "b.png", "b.png", "image/png", 4, "uploads/b.png", 0⟩,
        ⟨3, 1, "c.png", "c.png", "image/png", 5, "uploads/c.png", 7⟩], 4⟩, ⟨[]⟩⟩
     rfl ⟨3, 1, "c.png", "c.png", "image/png", 5, "uploads/c.png", 7⟩ (by decide)⟩

/-- C8: a deleteImage call by the owner of an existing image attempts the
file unlink and deletes the database record: afterwards findById returns
none and the path is gone from the filesystem state. No hypothesis
constrains the filesystem, so the record deletion goes through even when
the unlink fails because the file is absent. -/
theorem deleteImage_owner_removes_both
    (st : ImageState) (uid imageId : Nat) (img : Image)
    (hfind : ImageRepository.findById st.db imageId = some img)
    (hown : img.userId = uid) :
    ImageService.deleteImage st uid imageId
      = (.ok (), ⟨ImageRepository.delete st.db imageId,
          (st.fs.unlink img.path).1⟩) ∧
    ImageRepository.findById
        (ImageService.deleteImage st uid imageId).2.db imageId = none ∧
    img.path ∉ (ImageService.deleteImage st uid imageId).2.fs.files := by
  have hbeq : (img.userId != uid) = false := by simp [hown]
  have hmain : ImageService.deleteImage st uid imageId
      = (.ok (), ⟨ImageRepository.delete st.db imageId,
          (st.fs.unlink img.path).1⟩) := by
    unfold ImageService.deleteImage
    rw [hfind]
    dsimp only
    rw [hbeq]
    simp only [Bool.false_eq_true, if_false]
  refine ⟨hmain, ?_, ?_⟩
  · rw [hmain]
    dsimp only
    unfold ImageRepository.findById ImageRepository.delete
    dsimp only
    apply List.find?_eq_none.mpr
    intro x hx
    have hkeep := (List.mem_filter.mp hx).2
    simp only [bne_iff_ne, ne_eq] at hkeep
    simpa using hkeep
  · rw [hmain]
    dsimp only
    unfold FileSys.unlink
    by_cases hp : st.fs.files.contains img.path
    · rw [if_pos hp]
      dsimp only
      intro hmem
      have hkeep := (List.mem_filter.mp hmem).2
      simp at hkeep
    · rw [if_neg hp]
      dsimp only
      intro hmem
      exact hp (List.elem_iff.mpr hmem)

/-- C8 witness: the owner deletes their stored image; both the record and
the path disappear. -/
theorem deleteImage_owner_removes_both_witness :
    ImageService.deleteImage
        ⟨⟨[⟨1, 1, "f.png", "o.png", "image/png", 10, "uploads/f.png", 0⟩], 2⟩,
          ⟨["uploads/f.png"]⟩⟩ 1 1
      = (.ok (), ⟨ImageRepository.delete
            ⟨[⟨1, 1, "f.png", "o.png", "image/png", 10, "uploads/f.png", 0⟩], 2⟩ 1,
          ((⟨["uploads/f.png"]⟩ : FileSys).unlink "uploads/f.png").1⟩) ∧
    ImageRepository.findById
        (ImageService.deleteImage
          ⟨⟨[⟨1, 1, "f.png", "o.png", "image/png", 10, "uploads/f.png", 0⟩], 2⟩,
            ⟨["uploads/f.png"]⟩⟩ 1 1).2.db 1 = none ∧
    "uploads/f.png" ∉ (ImageService.deleteImage
        ⟨⟨[⟨1, 1, "f.png", "o.png", "image/png", 10, "uploads/f.png", 0⟩], 2⟩,
          ⟨["uploads/f.png"]⟩⟩ 1 1).2.fs.files :=
  deleteImage_owner_removes_both
    ⟨⟨[⟨1, 1, "f.png", "o.png", "image/png", 10, "uploads/f.png", 0⟩], 2⟩,
      ⟨["uploads/f.png"]⟩⟩ 1 1
    ⟨1, 1, "f.png", "o.png", "image/png", 10, "uploads/f.png", 0⟩ rfl rfl

/-- C9: both login controllers swallow service errors themselves: whenever
the login service rejects the credentials, UserController answers 500 with
the fixed body and AuthController answers 500 with the raw message and no
success field, and neither controller can ever answer 401. The live login
route binds UserController, whose service is modelled after the spec. -/
theorem login_controllers_catch_500
    (cmp : String → String → Bool) (gen : Nat → String) (st : AuthState)
    (email password : Option String) :
    (∀ e p err, email = some e → password = some p →
       bodyFieldMissing email = false → bodyFieldMissing password = false →
       AuthService.login cmp gen st e p = .error err →
       UserController.login cmp gen st email password
           = ⟨500, some false, "Internal server error"⟩ ∧
       AuthController.login cmp gen st email password
           = ⟨500, none, err.message⟩) ∧
    (UserController.login cmp gen st email password).status ≠ 401 ∧
    (AuthController.login cmp gen st email password).status ≠ 401 := by
  refine ⟨?_, ?_, ?_⟩
  · intro e p err hemail hpassword hme hmp herr
    subst hemail hpassword
    constructor
    · unfold UserController.login UserService.login
      rw [hme, hmp]
      dsimp only
      rw [herr]
      rfl
    · unfold AuthController.login
      rw [hme, hmp]
      dsimp only
      rw [herr]
      rfl
  · unfold UserController.login
    by_cases hmiss : (bodyFieldMissing email || bodyFieldMissing password) = true
    · rw [if_pos hmiss]
      simp
    · rw [if_neg hmiss]
      cases email with
      | none => simp
      | some e =>
          cases password with
          | none => simp
          | some p =>
              dsimp only
              cases hlog : UserService.login cmp gen st e p <;> simp
  · unfold AuthController.login
    by_cases hmiss : (bodyFieldMissing email || bodyFieldMissing password) = true
    · rw [if_pos hmiss]
      simp
    · rw [if_neg hmiss]
      cases email with
      | none => simp
      | some e =>
          cases password with
          | none => simp
          | some p =>
              dsimp only
              cases hlog : AuthService.login cmp gen st e p <;> simp

/-- C9 witness: a concrete login with a wrong password reaches both
controllers as a 500, with the fixed body on UserController, although the
service error is the 401 AuthenticationError. -/
theorem login_controllers_catch_500_witness :
    UserController.login (fun p h => p == h) (fun n => toString n)
        ⟨[⟨1, "a@b.c", "Al", "secret", 0⟩], 2⟩ (some "a@b.c") (some "wrong")
      = ⟨500, some false, "Internal server error"⟩ ∧
    AuthController.login (fun p h => p == h) (fun n => toString n)
        ⟨[⟨1, "a@b.c", "Al", "secret", 0⟩], 2⟩ (some "a@b.c") (some "wrong")
      = ⟨500, none, "Invalid credentials"⟩ :=
  (login_controllers_catch_500 (fun p h => p == h) (fun n => toString n)
      ⟨[⟨1, "a@b.c", "Al", "secret", 0⟩], 2⟩ (some "a@b.c") (some "wrong")).1
    "a@b.c" "wrong" (.authentication "Invalid credentials")
    rfl rfl rfl rfl rfl

end ImageMgmt
